import Mathlib

/-!
Shallow embedding of the sewer-pipe condition database: the SQLAlchemy
schema of `schema.py` and the bootstrap glue of `database.py`.

Each model class of `schema.py` becomes a Lean structure whose fields are
the class's columns.  SQL nullability is represented by `Option`: a
candidate record may carry `none` in any column, and the NOT NULL checks
happen at insert time, as in SQL.  `Integer` columns become `Int`,
`String` columns `String`, `Float` columns `Rat`, `Date` columns
`SqlDate`, `Boolean` columns `Bool`.

The declared table metadata (column names, types, nullability, primary
keys, foreign keys) is transcribed as `TableDef` values in the order the
classes appear in `schema.py`; `Base.metadata.create_all`, called by
`create_tables` of `database.py`, reads only this metadata.

The operational meaning of an insert against the declared constraints is
the standard relational one: primary-key resolution (a missing integer
primary key is auto-assigned by the storage layer, a supplied one must be
fresh), NOT NULL checks, and foreign-key existence checks against the
stored rows of the target table, each failure surfacing as a
`ConstraintViolation` naming the offending table and column.
-/

namespace SewerSchema

/-- Calendar date, the carrier of SQL `Date` columns. -/
structure SqlDate where
  year : Int
  month : Nat
  day : Nat
  deriving DecidableEq, Repr

/-- Write-time constraint failures, each naming the offending table and
column: missing required attribute, dangling foreign key, or duplicate
primary-key occupancy. -/
inductive ConstraintViolation where
  | notNull (table column : String)
  | foreignKey (table column : String)
  | uniqueKey (table column : String)
  deriving DecidableEq, Repr

/-- Concrete semantic type of a column, as declared in `schema.py`. -/
inductive ColType where
  | integer
  | string
  | float
  | date
  | boolean
  deriving DecidableEq, Repr

/-- Declared metadata of one column: name, type, nullability, whether it
is part of the primary key, and its foreign-key target (table, column)
when it has one. -/
structure ColumnDef where
  name : String
  ty : ColType
  nullable : Bool
  primary_key : Bool
  fk : Option (String × String)
  deriving DecidableEq, Repr

/-- Declared metadata of one table. -/
structure TableDef where
  tablename : String
  columns : List ColumnDef
  deriving DecidableEq, Repr

/-- Plain nullable non-key column, the common case in `schema.py`
(SQLAlchemy `Column(T)` defaults to `nullable=True`). -/
def col (name : String) (ty : ColType) : ColumnDef :=
  ⟨name, ty, true, false, none⟩

/-- Integer primary-key column (SQLAlchemy forces `nullable=False` on
primary keys). -/
def pkCol (name : String) : ColumnDef :=
  ⟨name, .integer, false, true, none⟩

/-- Nullable integer foreign-key column. -/
def fkCol (name : String) (target : String × String) : ColumnDef :=
  ⟨name, .integer, true, false, some target⟩

/-- Required (`nullable=False`) integer foreign-key column. -/
def fkColReq (name : String) (target : String × String) : ColumnDef :=
  ⟨name, .integer, false, false, some target⟩

/-- Metadata of table `pipe` (class `Pipe`).  The class body assigns
`Weather_station_ID` twice; the second assignment (the foreign-key
column) overwrites the first plain integer column, so only the
foreign-key column reaches the table. -/
def pipeTable : TableDef :=
  ⟨"pipe",
   [pkCol "Pipe_ID",
    col "Installation_year" .integer,
    col "Diameter" .integer,
    col "Material" .string,
    col "Pipe_length" .float,
    col "Slope" .float,
    col "Depth" .float,
    col "Sewage_type" .string,
    col "Groundwater_level" .float,
    col "Trees_nearby" .integer,
    col "Shape" .string,
    col "Land_use_and_cover" .string,
    col "Bedding" .string,
    col "Joint_type" .string,
    col "Population" .integer,
    col "Sewer_connections" .integer,
    col "Climatic_condition" .float,
    col "Sewer_category" .string,
    col "Installation_method" .string,
    col "Backfill_type" .string,
    col "Manufacturer" .string,
    col "Construction_quality" .string,
    col "Lining_type" .string,
    col "Design_life" .integer,
    col "Ground_level" .float,
    col "Wall_thickness" .float,
    col "Tidal_influence" .boolean,
    col "Frost_Action" .boolean,
    col "Water_quality" .float,
    col "Surcharge" .boolean,
    col "No_of_commercial_properties" .integer,
    col "No_of_direct_upstream_users" .integer,
    col "Seismic_activity_ID" .integer,
    col "Soil_pH" .float,
    col "Soil_type" .string,
    col "Soil_moisture" .string,
    col "Soil_resistivity" .float,
    col "Traffic_load" .string,
    col "Road_above" .boolean,
    col "Building_above" .boolean,
    fkCol "Weather_station_ID" ("weather_station", "Weather_station_ID"),
    fkCol "Manhole_up_ID" ("manhole", "Manhole_ID"),
    fkCol "Manhole_down_ID" ("manhole", "Manhole_ID")]⟩

/-- Metadata of table `weather_station` (class `WeatherStation`). -/
def weatherStationTable : TableDef :=
  ⟨"weather_station",
   [pkCol "Weather_station_ID",
    col "X_coordinate" .float,
    col "Y_coordinate" .float]⟩

/-- Metadata of table `rainfall` (class `Rainfall`). -/
def rainfallTable : TableDef :=
  ⟨"rainfall",
   [fkCol "Weather_station_ID" ("weather_station", "Weather_station_ID"),
    pkCol "id",
    col "Observation_time" .date,
    col "Frequency" .string,
    col "Statistics" .string,
    col "Intensity" .float]⟩

/-- Metadata of table `air_humidity` (class `AirHumidity`). -/
def airHumidityTable : TableDef :=
  ⟨"air_humidity",
   [pkCol "air_humidity_id",
    fkCol "Weather_station_ID" ("weather_station", "Weather_station_ID"),
    col "Observation_time" .date,
    col "Frequency" .string,
    col "Statistics" .string,
    col "Humidity_value" .float]⟩

/-- Metadata of table `air_temperature` (class `AirTemperature`). -/
def airTemperatureTable : TableDef :=
  ⟨"air_temperature",
   [fkCol "Weather_station_ID" ("weather_station", "Weather_station_ID"),
    pkCol "id",
    col "Observation_time" .date,
    col "Frequency" .string,
    col "Statistics" .string,
    col "Temperature_value" .float]⟩

/-- Metadata of table `pipe_seismic_impact` (class `PipeSeismicImpact`):
two required foreign keys and an autoincrement surrogate primary key. -/
def pipeSeismicImpactTable : TableDef :=
  ⟨"pipe_seismic_impact",
   [fkColReq "Pipe_ID" ("pipe", "Pipe_ID"),
    fkColReq "Seismic_activity_ID" ("seismic_activity", "Seismic_activity_ID"),
    pkCol "id"]⟩

/-- Metadata of table `seismic_activity` (class `SeismicActivity`). -/
def seismicActivityTable : TableDef :=
  ⟨"seismic_activity",
   [pkCol "Seismic_activity_ID",
    col "Seismic_type" .string,
    col "Reference_date" .date,
    col "Magnitude" .float,
    col "Depth_km" .float,
    col "X_coordinate" .float,
    col "Y_coordinate" .float,
    col "peak_ground_acceleration" .float]⟩

/-- Metadata of table `manhole` (class `Manhole`). -/
def manholeTable : TableDef :=
  ⟨"manhole",
   [pkCol "Manhole_ID",
    col "X_coordinate" .float,
    col "Y_coordinate" .float]⟩

/-- Metadata of table `hydraulic_properties` (class
`HydraulicProperties`): `Pipe_ID` is both the primary key and a foreign
key to `pipe`, the shared-key one-to-one pattern. -/
def hydraulicPropertiesTable : TableDef :=
  ⟨"hydraulic_properties",
   [⟨"Pipe_ID", .integer, false, true, some ("pipe", "Pipe_ID")⟩,
    col "Wet_peak_flow_rate" .float,
    col "Dry_peak_flow_rate" .float,
    col "Wet_peak_velocity" .float,
    col "Dry_peak_velocity" .float,
    col "Pipe_capacity" .float]⟩

/-- Metadata of table `intervention_history` (class
`InterventionHistory`). -/
def interventionHistoryTable : TableDef :=
  ⟨"intervention_history",
   [pkCol "Intervention_ID",
    col "Start_date" .date,
    col "End_date" .date,
    col "Type_of_intervention" .string,
    col "Planned_or_reactive" .string,
    col "Status" .string,
    col "Priority" .string,
    fkColReq "Pipe_ID" ("pipe", "Pipe_ID"),
    col "Position_start" .float,
    col "Position_end" .float,
    col "Comments" .string]⟩

/-- Metadata of table `inspection` (class `Inspection`). -/
def inspectionTable : TableDef :=
  ⟨"inspection",
   [pkCol "Inspection_ID",
    fkColReq "Pipe_ID" ("pipe", "Pipe_ID"),
    col "Date" .date,
    col "Condition_rating" .integer,
    col "Survey_length" .float,
    col "Inspection_status" .string,
    col "Starting_manhole" .string,
    col "Comments" .string]⟩

/-- Metadata of table `defect` (class `Defect`): `Main_defect_code` is
declared `nullable=False` although it is neither a key nor a foreign
key. -/
def defectTable : TableDef :=
  ⟨"defect",
   [pkCol "Defect_ID",
    fkColReq "Inspection_ID" ("inspection", "Inspection_ID"),
    ⟨"Main_defect_code", .string, false, false, none⟩,
    col "Characterization_code" .string,
    col "Quantification" .string,
    col "Longitudinal_distance" .float,
    col "Circumferential_start" .integer,
    col "Circumferential_end" .integer,
    col "Comments" .string]⟩

/-- Metadata of table `failure` (class `Failure`): `Pipe_ID` is a
required foreign key, `Intervention_ID` a nullable one. -/
def failureTable : TableDef :=
  ⟨"failure",
   [pkCol "Failure_ID",
    fkColReq "Pipe_ID" ("pipe", "Pipe_ID"),
    fkCol "Intervention_ID" ("intervention_history", "Intervention_ID"),
    col "Type_of_failure" .string,
    col "Date" .date,
    col "Cause" .string,
    col "Cause_location" .string,
    col "Damage_caused" .string,
    col "Comments" .string]⟩

/-- All tables registered on `Base.metadata`, in class-definition
order. -/
def metadataTables : List TableDef :=
  [pipeTable, weatherStationTable, rainfallTable, airHumidityTable,
   airTemperatureTable, pipeSeismicImpactTable, seismicActivityTable,
   manholeTable, hydraulicPropertiesTable, interventionHistoryTable,
   inspectionTable, defectTable, failureTable]

/-- Record of class `Pipe` (table `pipe`).  Every column is `Option`:
`none` is SQL NULL; a primary key left `none` on a candidate is
auto-assigned at insert.  The duplicate class-body assignment of
`Weather_station_ID` leaves a single column, the foreign-key one. -/
structure Pipe where
  Pipe_ID : Option Int := none
  Installation_year : Option Int := none
  Diameter : Option Int := none
  Material : Option String := none
  Pipe_length : Option Rat := none
  Slope : Option Rat := none
  Depth : Option Rat := none
  Sewage_type : Option String := none
  Groundwater_level : Option Rat := none
  Trees_nearby : Option Int := none
  Shape : Option String := none
  Land_use_and_cover : Option String := none
  Bedding : Option String := none
  Joint_type : Option String := none
  Population : Option Int := none
  Sewer_connections : Option Int := none
  Climatic_condition : Option Rat := none
  Sewer_category : Option String := none
  Installation_method : Option String := none
  Backfill_type : Option String := none
  Manufacturer : Option String := none
  Construction_quality : Option String := none
  Lining_type : Option String := none
  Design_life : Option Int := none
  Ground_level : Option Rat := none
  Wall_thickness : Option Rat := none
  Tidal_influence : Option Bool := none
  Frost_Action : Option Bool := none
  Water_quality : Option Rat := none
  Surcharge : Option Bool := none
  No_of_commercial_properties : Option Int := none
  No_of_direct_upstream_users : Option Int := none
  Seismic_activity_ID : Option Int := none
  Soil_pH : Option Rat := none
  Soil_type : Option String := none
  Soil_moisture : Option String := none
  Soil_resistivity : Option Rat := none
  Traffic_load : Option String := none
  Road_above : Option Bool := none
  Building_above : Option Bool := none
  Weather_station_ID : Option Int := none
  Manhole_up_ID : Option Int := none
  Manhole_down_ID : Option Int := none

/-- Record of class `WeatherStation` (table `weather_station`). -/
structure WeatherStation where
  Weather_station_ID : Option Int := none
  X_coordinate : Option Rat := none
  Y_coordinate : Option Rat := none

/-- Record of class `Rainfall` (table `rainfall`). -/
structure Rainfall where
  Weather_station_ID : Option Int := none
  id : Option Int := none
  Observation_time : Option SqlDate := none
  Frequency : Option String := none
  Statistics : Option String := none
  Intensity : Option Rat := none

/-- Record of class `AirHumidity` (table `air_humidity`). -/
structure AirHumidity where
  air_humidity_id : Option Int := none
  Weather_station_ID : Option Int := none
  Observation_time : Option SqlDate := none
  Frequency : Option String := none
  Statistics : Option String := none
  Humidity_value : Option Rat := none

/-- Record of class `AirTemperature` (table `air_temperature`). -/
structure AirTemperature where
  Weather_station_ID : Option Int := none
  id : Option Int := none
  Observation_time : Option SqlDate := none
  Frequency : Option String := none
  Statistics : Option String := none
  Temperature_value : Option Rat := none

/-- Record of class `PipeSeismicImpact` (table `pipe_seismic_impact`). -/
structure PipeSeismicImpact where
  Pipe_ID : Option Int := none
  Seismic_activity_ID : Option Int := none
  id : Option Int := none

/-- Record of class `SeismicActivity` (table `seismic_activity`). -/
structure SeismicActivity where
  Seismic_activity_ID : Option Int := none
  Seismic_type : Option String := none
  Reference_date : Option SqlDate := none
  Magnitude : Option Rat := none
  Depth_km : Option Rat := none
  X_coordinate : Option Rat := none
  Y_coordinate : Option Rat := none
  peak_ground_acceleration : Option Rat := none

/-- Record of class `Manhole` (table `manhole`). -/
structure Manhole where
  Manhole_ID : Option Int := none
  X_coordinate : Option Rat := none
  Y_coordinate : Option Rat := none

/-- Record of class `HydraulicProperties` (table
`hydraulic_properties`). -/
structure HydraulicProperties where
  Pipe_ID : Option Int := none
  Wet_peak_flow_rate : Option Rat := none
  Dry_peak_flow_rate : Option Rat := none
  Wet_peak_velocity : Option Rat := none
  Dry_peak_velocity : Option Rat := none
  Pipe_capacity : Option Rat := none

/-- Record of class `InterventionHistory` (table
`intervention_history`). -/
structure InterventionHistory where
  Intervention_ID : Option Int := none
  Start_date : Option SqlDate := none
  End_date : Option SqlDate := none
  Type_of_intervention : Option String := none
  Planned_or_reactive : Option String := none
  Status : Option String := none
  Priority : Option String := none
  Pipe_ID : Option Int := none
  Position_start : Option Rat := none
  Position_end : Option Rat := none
  Comments : Option String := none

/-- Record of class `Inspection` (table `inspection`). -/
structure Inspection where
  Inspection_ID : Option Int := none
  Pipe_ID : Option Int := none
  Date : Option SqlDate := none
  Condition_rating : Option Int := none
  Survey_length : Option Rat := none
  Inspection_status : Option String := none
  Starting_manhole : Option String := none
  Comments : Option String := none

/-- Record of class `Defect` (table `defect`). -/
structure Defect where
  Defect_ID : Option Int := none
  Inspection_ID : Option Int := none
  Main_defect_code : Option String := none
  Characterization_code : Option String := none
  Quantification : Option String := none
  Longitudinal_distance : Option Rat := none
  Circumferential_start : Option Int := none
  Circumferential_end : Option Int := none
  Comments : Option String := none

/-- Record of class `Failure` (table `failure`). -/
structure Failure where
  Failure_ID : Option Int := none
  Pipe_ID : Option Int := none
  Intervention_ID : Option Int := none
  Type_of_failure : Option String := none
  Date : Option SqlDate := none
  Cause : Option String := none
  Cause_location : Option String := none
  Damage_caused : Option String := none
  Comments : Option String := none

/-- Stored contents of the database: one list of rows per table, newest
row first. -/
structure DB where
  pipes : List Pipe := []
  weather_stations : List WeatherStation := []
  rainfalls : List Rainfall := []
  air_humidities : List AirHumidity := []
  air_temperatures : List AirTemperature := []
  pipe_seismic_impacts : List PipeSeismicImpact := []
  seismic_activities : List SeismicActivity := []
  manholes : List Manhole := []
  hydraulic_properties : List HydraulicProperties := []
  intervention_histories : List InterventionHistory := []
  inspections : List Inspection := []
  defects : List Defect := []
  failures : List Failure := []

/-- Database with every table empty. -/
def emptyDB : DB := {}

/-- Primary-key values currently stored in `pipe`. -/
def pipePKs (db : DB) : List Int := db.pipes.filterMap Pipe.Pipe_ID

/-- Primary-key values currently stored in `weather_station`. -/
def weatherStationPKs (db : DB) : List Int :=
  db.weather_stations.filterMap WeatherStation.Weather_station_ID

/-- Primary-key values currently stored in `rainfall`. -/
def rainfallPKs (db : DB) : List Int := db.rainfalls.filterMap Rainfall.id

/-- Primary-key values currently stored in `air_humidity`. -/
def airHumidityPKs (db : DB) : List Int :=
  db.air_humidities.filterMap AirHumidity.air_humidity_id

/-- Primary-key values currently stored in `air_temperature`. -/
def airTemperaturePKs (db : DB) : List Int :=
  db.air_temperatures.filterMap AirTemperature.id

/-- Primary-key values currently stored in `pipe_seismic_impact`. -/
def pipeSeismicImpactPKs (db : DB) : List Int :=
  db.pipe_seismic_impacts.filterMap PipeSeismicImpact.id

/-- Primary-key values currently stored in `seismic_activity`. -/
def seismicActivityPKs (db : DB) : List Int :=
  db.seismic_activities.filterMap SeismicActivity.Seismic_activity_ID

/-- Primary-key values currently stored in `manhole`. -/
def manholePKs (db : DB) : List Int := db.manholes.filterMap Manhole.Manhole_ID

/-- Primary-key values currently stored in `hydraulic_properties`. -/
def hydraulicPropertiesPKs (db : DB) : List Int :=
  db.hydraulic_properties.filterMap HydraulicProperties.Pipe_ID

/-- Primary-key values currently stored in `intervention_history`. -/
def interventionHistoryPKs (db : DB) : List Int :=
  db.intervention_histories.filterMap InterventionHistory.Intervention_ID

/-- Primary-key values currently stored in `inspection`. -/
def inspectionPKs (db : DB) : List Int :=
  db.inspections.filterMap Inspection.Inspection_ID

/-- Primary-key values currently stored in `defect`. -/
def defectPKs (db : DB) : List Int := db.defects.filterMap Defect.Defect_ID

/-- Primary-key values currently stored in `failure`. -/
def failurePKs (db : DB) : List Int := db.failures.filterMap Failure.Failure_ID

/-- Identifier assigned by the storage layer when the integer primary
key is left NULL on insert: one more than the largest key stored. -/
def nextId (keys : List Int) : Int := keys.foldr max 0 + 1

/-- Primary-key resolution on insert: a key left NULL is auto-assigned,
a supplied key must not collide with a stored one. -/
def resolvePK (table column : String) (keys : List Int) :
    Option Int → Except ConstraintViolation Int
  | none => .ok (nextId keys)
  | some v =>
    if v ∈ keys then .error (.uniqueKey table column) else .ok v

/-- Foreign-key check for a nullable foreign-key column: NULL passes, a
value must match a stored key of the target table. -/
def checkFKopt (table column : String) (targets : List Int) :
    Option Int → Except ConstraintViolation Unit
  | none => .ok ()
  | some v =>
    if v ∈ targets then .ok () else .error (.foreignKey table column)

/-- Foreign-key check for a `nullable=False` foreign-key column: NULL is
a NOT NULL violation, a value must match a stored key of the target
table. -/
def checkFKreq (table column : String) (targets : List Int) :
    Option Int → Except ConstraintViolation Int
  | none => .error (.notNull table column)
  | some v =>
    if v ∈ targets then .ok v else .error (.foreignKey table column)

/-- NOT NULL check for a required plain column. -/
def checkReq {α : Type} (table column : String) :
    Option α → Except ConstraintViolation α
  | none => .error (.notNull table column)
  | some v => .ok v

/-- Insert into `pipe`: resolve the primary key, then check the three
declared foreign keys (`Weather_station_ID`, `Manhole_up_ID`,
`Manhole_down_ID`).  `Seismic_activity_ID` is a plain integer column
with no foreign key, so it is not checked. -/
def insertPipe (db : DB) (r : Pipe) : Except ConstraintViolation DB :=
  (resolvePK "pipe" "Pipe_ID" (pipePKs db) r.Pipe_ID).bind fun v =>
  (checkFKopt "pipe" "Weather_station_ID" (weatherStationPKs db)
      r.Weather_station_ID).bind fun _ =>
  (checkFKopt "pipe" "Manhole_up_ID" (manholePKs db) r.Manhole_up_ID).bind fun _ =>
  (checkFKopt "pipe" "Manhole_down_ID" (manholePKs db) r.Manhole_down_ID).bind fun _ =>
  .ok { db with pipes := { r with Pipe_ID := some v } :: db.pipes }

/-- Insert into `weather_station`: only the primary key is
constrained. -/
def insertWeatherStation (db : DB) (r : WeatherStation) :
    Except ConstraintViolation DB :=
  (resolvePK "weather_station" "Weather_station_ID" (weatherStationPKs db)
      r.Weather_station_ID).bind fun v =>
  .ok { db with weather_stations :=
          { r with Weather_station_ID := some v } :: db.weather_stations }

/-- Insert into `rainfall`: nullable foreign key to `weather_station`,
autoincrement primary key `id`. -/
def insertRainfall (db : DB) (r : Rainfall) : Except ConstraintViolation DB :=
  (resolvePK "rainfall" "id" (rainfallPKs db) r.id).bind fun v =>
  (checkFKopt "rainfall" "Weather_station_ID" (weatherStationPKs db)
      r.Weather_station_ID).bind fun _ =>
  .ok { db with rainfalls := { r with id := some v } :: db.rainfalls }

/-- Insert into `air_humidity`. -/
def insertAirHumidity (db : DB) (r : AirHumidity) :
    Except ConstraintViolation DB :=
  (resolvePK "air_humidity" "air_humidity_id" (airHumidityPKs db)
      r.air_humidity_id).bind fun v =>
  (checkFKopt "air_humidity" "Weather_station_ID" (weatherStationPKs db)
      r.Weather_station_ID).bind fun _ =>
  .ok { db with air_humidities :=
          { r with air_humidity_id := some v } :: db.air_humidities }

/-- Insert into `air_temperature`. -/
def insertAirTemperature (db : DB) (r : AirTemperature) :
    Except ConstraintViolation DB :=
  (resolvePK "air_temperature" "id" (airTemperaturePKs db) r.id).bind fun v =>
  (checkFKopt "air_temperature" "Weather_station_ID" (weatherStationPKs db)
      r.Weather_station_ID).bind fun _ =>
  .ok { db with air_temperatures :=
          { r with id := some v } :: db.air_temperatures }

/-- Insert into `pipe_seismic_impact`: autoincrement surrogate primary
key `id` and two required foreign keys. -/
def insertPipeSeismicImpact (db : DB) (r : PipeSeismicImpact) :
    Except ConstraintViolation DB :=
  (resolvePK "pipe_seismic_impact" "id" (pipeSeismicImpactPKs db) r.id).bind fun v =>
  (checkFKreq "pipe_seismic_impact" "Pipe_ID" (pipePKs db) r.Pipe_ID).bind fun _ =>
  (checkFKreq "pipe_seismic_impact" "Seismic_activity_ID"
      (seismicActivityPKs db) r.Seismic_activity_ID).bind fun _ =>
  .ok { db with pipe_seismic_impacts :=
          { r with id := some v } :: db.pipe_seismic_impacts }

/-- Insert into `seismic_activity`. -/
def insertSeismicActivity (db : DB) (r : SeismicActivity) :
    Except ConstraintViolation DB :=
  (resolvePK "seismic_activity" "Seismic_activity_ID" (seismicActivityPKs db)
      r.Seismic_activity_ID).bind fun v =>
  .ok { db with seismic_activities :=
          { r with Seismic_activity_ID := some v } :: db.seismic_activities }

/-- Insert into `manhole`. -/
def insertManhole (db : DB) (r : Manhole) : Except ConstraintViolation DB :=
  (resolvePK "manhole" "Manhole_ID" (manholePKs db) r.Manhole_ID).bind fun v =>
  .ok { db with manholes := { r with Manhole_ID := some v } :: db.manholes }

/-- Insert into `hydraulic_properties`: `Pipe_ID` is both the primary
key and a foreign key to `pipe`.  Because the column carries a foreign
key it is not auto-assigned; it must be supplied, must not collide with
a stored `hydraulic_properties` row (the one-to-one occupancy), and must
match a stored pipe. -/
def insertHydraulicProperties (db : DB) (r : HydraulicProperties) :
    Except ConstraintViolation DB :=
  match r.Pipe_ID with
  | none => .error (.notNull "hydraulic_properties" "Pipe_ID")
  | some v =>
    if v ∈ hydraulicPropertiesPKs db then
      .error (.uniqueKey "hydraulic_properties" "Pipe_ID")
    else if v ∈ pipePKs db then
      .ok { db with hydraulic_properties :=
              { r with Pipe_ID := some v } :: db.hydraulic_properties }
    else .error (.foreignKey "hydraulic_properties" "Pipe_ID")

/-- Insert into `intervention_history`: required foreign key to
`pipe`. -/
def insertInterventionHistory (db : DB) (r : InterventionHistory) :
    Except ConstraintViolation DB :=
  (resolvePK "intervention_history" "Intervention_ID"
      (interventionHistoryPKs db) r.Intervention_ID).bind fun v =>
  (checkFKreq "intervention_history" "Pipe_ID" (pipePKs db) r.Pipe_ID).bind fun _ =>
  .ok { db with intervention_histories :=
          { r with Intervention_ID := some v } :: db.intervention_histories }

/-- Insert into `inspection`: required foreign key to `pipe`. -/
def insertInspection (db : DB) (r : Inspection) :
    Except ConstraintViolation DB :=
  (resolvePK "inspection" "Inspection_ID" (inspectionPKs db)
      r.Inspection_ID).bind fun v =>
  (checkFKreq "inspection" "Pipe_ID" (pipePKs db) r.Pipe_ID).bind fun _ =>
  .ok { db with inspections :=
          { r with Inspection_ID := some v } :: db.inspections }

/-- Insert into `defect`: required foreign key to `inspection` and
required plain column `Main_defect_code`; the circumferential clock
positions are unconstrained. -/
def insertDefect (db : DB) (r : Defect) : Except ConstraintViolation DB :=
  (resolvePK "defect" "Defect_ID" (defectPKs db) r.Defect_ID).bind fun v =>
  (checkFKreq "defect" "Inspection_ID" (inspectionPKs db) r.Inspection_ID).bind fun _ =>
  (checkReq "defect" "Main_defect_code" r.Main_defect_code).bind fun _ =>
  .ok { db with defects := { r with Defect_ID := some v } :: db.defects }

/-- Insert into `failure`: required foreign key to `pipe`, nullable
foreign key to `intervention_history`. -/
def insertFailure (db : DB) (r : Failure) : Except ConstraintViolation DB :=
  (resolvePK "failure" "Failure_ID" (failurePKs db) r.Failure_ID).bind fun v =>
  (checkFKreq "failure" "Pipe_ID" (pipePKs db) r.Pipe_ID).bind fun _ =>
  (checkFKopt "failure" "Intervention_ID" (interventionHistoryPKs db)
      r.Intervention_ID).bind fun _ =>
  .ok { db with failures := { r with Failure_ID := some v } :: db.failures }

/-- State of the storage backend: the set of materialized tables of the
SQLite file, plus the stored rows. -/
structure Storage where
  tables : List String := []
  db : DB := {}

/-- `Base.metadata.create_all(bind=engine)`: create every table of the
metadata that does not already exist (`checkfirst` semantics); existing
tables and stored rows are untouched. -/
def create_all (s : Storage) : Storage :=
  { s with tables :=
      s.tables ++ ((metadataTables.map TableDef.tablename).filter
        fun t => decide (t ∉ s.tables)) }

/-- The `create_tables` function of `database.py`. -/
def create_tables (s : Storage) : Storage := create_all s

/-- One `relationship()` declaration: owning class, attribute name,
target class, and the `back_populates` attribute it names on the target
class. -/
structure RelationshipDef where
  owner : String
  attr : String
  target : String
  back_populates : Option String
  deriving DecidableEq, Repr

/-- Every `relationship()` declaration of `schema.py`, in source
order. -/
def schemaRelationships : List RelationshipDef :=
  [⟨"Pipe", "weather_station", "WeatherStation", some "pipes"⟩,
   ⟨"Pipe", "upstream_manhole", "Manhole", some "pipes_upstream"⟩,
   ⟨"Pipe", "downstream_manhole", "Manhole", some "pipes_downstream"⟩,
   ⟨"Pipe", "hydraulic_properties", "HydraulicProperties", some "pipe"⟩,
   ⟨"Pipe", "interventions", "InterventionHistory", some "pipe"⟩,
   ⟨"Pipe", "failures", "Failure", some "pipe"⟩,
   ⟨"Pipe", "seismic_impact", "PipeSeismicImpact", some "pipe"⟩,
   ⟨"Pipe", "inspection", "Inspection", some "pipe"⟩,
   ⟨"WeatherStation", "pipes", "Pipe", some "weather_station"⟩,
   ⟨"WeatherStation", "air_temperature_records", "AirTemperature", some "weather_station"⟩,
   ⟨"WeatherStation", "air_humidity_records", "AirHumidity", some "weather_station"⟩,
   ⟨"WeatherStation", "rainfall_records", "Rainfall", some "weather_station"⟩,
   ⟨"Rainfall", "weather_station", "WeatherStation", some "rainfall_records"⟩,
   ⟨"AirHumidity", "weather_station", "WeatherStation", some "air_humidity_records"⟩,
   ⟨"AirTemperature", "weather_station", "WeatherStation", some "air_temperature_records"⟩,
   ⟨"PipeSeismicImpact", "pipe", "Pipe", some "seismic_impact"⟩,
   ⟨"PipeSeismicImpact", "seismic_activity", "SeismicActivity", some "pipe_impacts"⟩,
   ⟨"SeismicActivity", "pipes", "Pipe", some "seismic_activity"⟩,
   ⟨"SeismicActivity", "pipe_impacts", "PipeSeismicImpact", some "seismic_activity"⟩,
   ⟨"Manhole", "pipes_upstream", "Pipe", some "upstream_manhole"⟩,
   ⟨"Manhole", "pipes_downstream", "Pipe", some "downstream_manhole"⟩,
   ⟨"HydraulicProperties", "pipe", "Pipe", some "hydraulic_properties"⟩,
   ⟨"InterventionHistory", "pipe", "Pipe", some "interventions"⟩,
   ⟨"InterventionHistory", "failures", "Failure", some "intervention"⟩,
   ⟨"Inspection", "pipe", "Pipe", some "inspection"⟩,
   ⟨"Inspection", "defects", "Defect", some "inspection"⟩,
   ⟨"Defect", "inspection", "Inspection", some "defects"⟩,
   ⟨"Failure", "pipe", "Pipe", some "failures"⟩,
   ⟨"Failure", "intervention", "InterventionHistory", some "failures"⟩]

/-- Whether the attribute a relationship names through `back_populates`
exists as a relationship on the target class. -/
def back_populates_resolves (rels : List RelationshipDef)
    (r : RelationshipDef) : Bool :=
  match r.back_populates with
  | none => true
  | some a => rels.any fun o => o.owner == r.target && o.attr == a

/-- ORM mapper configuration, which SQLAlchemy runs on the first
instantiation or query of any mapped class: every `back_populates` must
name an existing relationship attribute on the target class, and the
configuration of the whole registry fails on the first declaration
whose named attribute is missing, identified here by its owning class
and attribute name.  Table creation does not run this check: it reads
only the table metadata. -/
def configure_mappers : Except (String × String) Unit :=
  match schemaRelationships.find?
      (fun r => ! back_populates_resolves schemaRelationships r) with
  | some r => .error (r.owner, r.attr)
  | none => .ok ()

/-- Concrete database used to exercise the insert operations: one
weather station, two manholes, two pipes (pipe 10 fully linked, pipe 11
bare), one seismic activity, one hydraulic-properties row for pipe 10,
one intervention and one inspection on pipe 10. -/
def dbW : DB :=
  { pipes := [{ Pipe_ID := some 10, Weather_station_ID := some 1,
                Manhole_up_ID := some 100, Manhole_down_ID := some 101 },
              { Pipe_ID := some 11 }],
    weather_stations := [{ Weather_station_ID := some 1 }],
    seismic_activities := [{ Seismic_activity_ID := some 5 }],
    manholes := [{ Manhole_ID := some 100 }, { Manhole_ID := some 101 }],
    hydraulic_properties := [{ Pipe_ID := some 10 }],
    intervention_histories := [{ Intervention_ID := some 3, Pipe_ID := some 10 }],
    inspections := [{ Inspection_ID := some 7, Pipe_ID := some 10 }] }

/-- An insert succeeds when it returns a new database state. -/
def succeeds (x : Except ConstraintViolation DB) : Prop :=
  ∃ db', x = .ok db'

/-- Primary-key uniqueness across the whole database: within each
table, no two stored records share the same primary-key value. -/
def DBUnique (db : DB) : Prop :=
  (db.pipes.map Pipe.Pipe_ID).Nodup ∧
  (db.weather_stations.map WeatherStation.Weather_station_ID).Nodup ∧
  (db.rainfalls.map Rainfall.id).Nodup ∧
  (db.air_humidities.map AirHumidity.air_humidity_id).Nodup ∧
  (db.air_temperatures.map AirTemperature.id).Nodup ∧
  (db.pipe_seismic_impacts.map PipeSeismicImpact.id).Nodup ∧
  (db.seismic_activities.map SeismicActivity.Seismic_activity_ID).Nodup ∧
  (db.manholes.map Manhole.Manhole_ID).Nodup ∧
  (db.hydraulic_properties.map HydraulicProperties.Pipe_ID).Nodup ∧
  (db.intervention_histories.map InterventionHistory.Intervention_ID).Nodup ∧
  (db.inspections.map Inspection.Inspection_ID).Nodup ∧
  (db.defects.map Defect.Defect_ID).Nodup ∧
  (db.failures.map Failure.Failure_ID).Nodup

/-- Every `nullable=False` column of the metadata that is neither a
primary-key column nor a foreign-key column, as (table, column)
pairs. -/
def requiredPlainColumns : List (String × String) :=
  (metadataTables.map fun t =>
    (t.columns.filter fun c =>
        !c.nullable && !c.primary_key && c.fk.isNone).map
      fun c => (t.tablename, c.name)).flatten

/-- Inversion of `Except.bind` on a successful result. -/
theorem bind_ok {ε α β : Type} {x : Except ε α} {f : α → Except ε β} {b : β} :
    x.bind f = .ok b ↔ ∃ a, x = .ok a ∧ f a = .ok b := by
  cases x with
  | error e => simp [Except.bind]
  | ok a => simp [Except.bind]

/-- Every stored key is bounded by the running maximum. -/
theorem le_foldr_max {keys : List Int} {k : Int} (h : k ∈ keys) :
    k ≤ keys.foldr max 0 := by
  induction keys with
  | nil => cases h
  | cons x xs ih =>
    rcases List.mem_cons.mp h with h | h
    · exact h ▸ le_max_left _ _
    · exact le_trans (ih h) (le_max_right _ _)

/-- The auto-assigned identifier is fresh. -/
theorem nextId_not_mem (keys : List Int) : nextId keys ∉ keys := by
  intro h
  have hle := le_foldr_max h
  unfold nextId at hle
  omega

/-- A resolved primary key never collides with a stored one. -/
theorem resolvePK_ok_not_mem {t c : String} {keys : List Int}
    {o : Option Int} {v : Int} (h : resolvePK t c keys o = .ok v) :
    v ∉ keys := by
  cases o with
  | none =>
    simp [resolvePK] at h
    exact h ▸ nextId_not_mem keys
  | some w =>
    by_cases hw : w ∈ keys
    · simp [resolvePK, hw] at h
    · simp [resolvePK, hw] at h
      exact h ▸ hw

/-- Membership in the mapped key column against the gathered key
list. -/
theorem some_mem_map_iff {α β : Type} (f : α → Option β) (l : List α) (v : β) :
    some v ∈ l.map f ↔ v ∈ l.filterMap f := by
  simp [List.mem_map, List.mem_filterMap]

/-- Prepending a row whose key is fresh keeps the key column
duplicate-free. -/
theorem nodup_cons_keys {α β : Type} {f : α → Option β} {l : List α}
    {a : α} {v : β} (hf : f a = some v) (hv : v ∉ l.filterMap f)
    (hl : (l.map f).Nodup) : ((a :: l).map f).Nodup := by
  rw [List.map_cons, hf, List.nodup_cons]
  exact ⟨fun hm => hv ((some_mem_map_iff f l v).mp hm), hl⟩

/-- Successful inserts into `pipe` prepend the row with its resolved
key and change nothing else. -/
theorem insertPipe_ok {db : DB} {r : Pipe} {db' : DB}
    (h : insertPipe db r = .ok db') :
    ∃ v, resolvePK "pipe" "Pipe_ID" (pipePKs db) r.Pipe_ID = .ok v ∧
      db' = { db with pipes := { r with Pipe_ID := some v } :: db.pipes } := by
  unfold insertPipe at h
  obtain ⟨v, hv, h⟩ := bind_ok.mp h
  obtain ⟨u1, -, h⟩ := bind_ok.mp h
  obtain ⟨u2, -, h⟩ := bind_ok.mp h
  obtain ⟨u3, -, h⟩ := bind_ok.mp h
  exact ⟨v, hv, (Except.ok.inj h).symm⟩

/-- Successful inserts into `weather_station`, inverted. -/
theorem insertWeatherStation_ok {db : DB} {r : WeatherStation} {db' : DB}
    (h : insertWeatherStation db r = .ok db') :
    ∃ v, resolvePK "weather_station" "Weather_station_ID"
        (weatherStationPKs db) r.Weather_station_ID = .ok v ∧
      db' = { db with weather_stations :=
                { r with Weather_station_ID := some v } :: db.weather_stations } := by
  unfold insertWeatherStation at h
  obtain ⟨v, hv, h⟩ := bind_ok.mp h
  exact ⟨v, hv, (Except.ok.inj h).symm⟩

/-- Successful inserts into `rainfall`, inverted. -/
theorem insertRainfall_ok {db : DB} {r : Rainfall} {db' : DB}
    (h : insertRainfall db r = .ok db') :
    ∃ v, resolvePK "rainfall" "id" (rainfallPKs db) r.id = .ok v ∧
      db' = { db with rainfalls := { r with id := some v } :: db.rainfalls } := by
  unfold insertRainfall at h
  obtain ⟨v, hv, h⟩ := bind_ok.mp h
  obtain ⟨u1, -, h⟩ := bind_ok.mp h
  exact ⟨v, hv, (Except.ok.inj h).symm⟩

/-- Successful inserts into `air_humidity`, inverted. -/
theorem insertAirHumidity_ok {db : DB} {r : AirHumidity} {db' : DB}
    (h : insertAirHumidity db r = .ok db') :
    ∃ v, resolvePK "air_humidity" "air_humidity_id" (airHumidityPKs db)
        r.air_humidity_id = .ok v ∧
      db' = { db with air_humidities :=
                { r with air_humidity_id := some v } :: db.air_humidities } := by
  unfold insertAirHumidity at h
  obtain ⟨v, hv, h⟩ := bind_ok.mp h
  obtain ⟨u1, -, h⟩ := bind_ok.mp h
  exact ⟨v, hv, (Except.ok.inj h).symm⟩

/-- Successful inserts into `air_temperature`, inverted. -/
theorem insertAirTemperature_ok {db : DB} {r : AirTemperature} {db' : DB}
    (h : insertAirTemperature db r = .ok db') :
    ∃ v, resolvePK "air_temperature" "id" (airTemperaturePKs db) r.id = .ok v ∧
      db' = { db with air_temperatures :=
                { r with id := some v } :: db.air_temperatures } := by
  unfold insertAirTemperature at h
  obtain ⟨v, hv, h⟩ := bind_ok.mp h
  obtain ⟨u1, -, h⟩ := bind_ok.mp h
  exact ⟨v, hv, (Except.ok.inj h).symm⟩

/-- Successful inserts into `pipe_seismic_impact`, inverted. -/
theorem insertPipeSeismicImpact_ok {db : DB} {r : PipeSeismicImpact} {db' : DB}
    (h : insertPipeSeismicImpact db r = .ok db') :
    ∃ v, resolvePK "pipe_seismic_impact" "id" (pipeSeismicImpactPKs db)
        r.id = .ok v ∧
      db' = { db with pipe_seismic_impacts :=
                { r with id := some v } :: db.pipe_seismic_impacts } := by
  unfold insertPipeSeismicImpact at h
  obtain ⟨v, hv, h⟩ := bind_ok.mp h
  obtain ⟨u1, -, h⟩ := bind_ok.mp h
  obtain ⟨u2, -, h⟩ := bind_ok.mp h
  exact ⟨v, hv, (Except.ok.inj h).symm⟩

/-- Successful inserts into `seismic_activity`, inverted. -/
theorem insertSeismicActivity_ok {db : DB} {r : SeismicActivity} {db' : DB}
    (h : insertSeismicActivity db r = .ok db') :
    ∃ v, resolvePK "seismic_activity" "Seismic_activity_ID"
        (seismicActivityPKs db) r.Seismic_activity_ID = .ok v ∧
      db' = { db with seismic_activities :=
                { r with Seismic_activity_ID := some v } :: db.seismic_activities } := by
  unfold insertSeismicActivity at h
  obtain ⟨v, hv, h⟩ := bind_ok.mp h
  exact ⟨v, hv, (Except.ok.inj h).symm⟩

/-- Successful inserts into `manhole`, inverted. -/
theorem insertManhole_ok {db : DB} {r : Manhole} {db' : DB}
    (h : insertManhole db r = .ok db') :
    ∃ v, resolvePK "manhole" "Manhole_ID" (manholePKs db) r.Manhole_ID = .ok v ∧
      db' = { db with manholes := { r with Manhole_ID := some v } :: db.manholes } := by
  unfold insertManhole at h
  obtain ⟨v, hv, h⟩ := bind_ok.mp h
  exact ⟨v, hv, (Except.ok.inj h).symm⟩

/-- Successful inserts into `hydraulic_properties`, inverted: the key
was supplied, occupies no stored hydraulic-properties row, and matches a
stored pipe. -/
theorem insertHydraulicProperties_ok {db : DB} {r : HydraulicProperties}
    {db' : DB} (h : insertHydraulicProperties db r = .ok db') :
    ∃ v, r.Pipe_ID = some v ∧ v ∉ hydraulicPropertiesPKs db ∧ v ∈ pipePKs db ∧
      db' = { db with hydraulic_properties :=
                { r with Pipe_ID := some v } :: db.hydraulic_properties } := by
  unfold insertHydraulicProperties at h
  cases hp : r.Pipe_ID with
  | none => rw [hp] at h; exact absurd h (by simp)
  | some v =>
    rw [hp] at h
    by_cases h1 : v ∈ hydraulicPropertiesPKs db
    · simp [h1] at h
    · by_cases h2 : v ∈ pipePKs db
      · simp [h1, h2] at h
        exact ⟨v, rfl, h1, h2, h.symm⟩
      · simp [h1, h2] at h

/-- Successful inserts into `intervention_history`, inverted. -/
theorem insertInterventionHistory_ok {db : DB} {r : InterventionHistory}
    {db' : DB} (h : insertInterventionHistory db r = .ok db') :
    ∃ v, resolvePK "intervention_history" "Intervention_ID"
        (interventionHistoryPKs db) r.Intervention_ID = .ok v ∧
      db' = { db with intervention_histories :=
                { r with Intervention_ID := some v } :: db.intervention_histories } := by
  unfold insertInterventionHistory at h
  obtain ⟨v, hv, h⟩ := bind_ok.mp h
  obtain ⟨u1, -, h⟩ := bind_ok.mp h
  exact ⟨v, hv, (Except.ok.inj h).symm⟩

/-- Successful inserts into `inspection`, inverted. -/
theorem insertInspection_ok {db : DB} {r : Inspection} {db' : DB}
    (h : insertInspection db r = .ok db') :
    ∃ v, resolvePK "inspection" "Inspection_ID" (inspectionPKs db)
        r.Inspection_ID = .ok v ∧
      db' = { db with inspections :=
                { r with Inspection_ID := some v } :: db.inspections } := by
  unfold insertInspection at h
  obtain ⟨v, hv, h⟩ := bind_ok.mp h
  obtain ⟨u1, -, h⟩ := bind_ok.mp h
  exact ⟨v, hv, (Except.ok.inj h).symm⟩

/-- Successful inserts into `defect`, inverted. -/
theorem insertDefect_ok {db : DB} {r : Defect} {db' : DB}
    (h : insertDefect db r = .ok db') :
    ∃ v, resolvePK "defect" "Defect_ID" (defectPKs db) r.Defect_ID = .ok v ∧
      db' = { db with defects := { r with Defect_ID := some v } :: db.defects } := by
  unfold insertDefect at h
  obtain ⟨v, hv, h⟩ := bind_ok.mp h
  obtain ⟨u1, -, h⟩ := bind_ok.mp h
  obtain ⟨u2, -, h⟩ := bind_ok.mp h
  exact ⟨v, hv, (Except.ok.inj h).symm⟩

/-- Successful inserts into `failure`, inverted. -/
theorem insertFailure_ok {db : DB} {r : Failure} {db' : DB}
    (h : insertFailure db r = .ok db') :
    ∃ v, resolvePK "failure" "Failure_ID" (failurePKs db) r.Failure_ID = .ok v ∧
      db' = { db with failures := { r with Failure_ID := some v } :: db.failures } := by
  unfold insertFailure at h
  obtain ⟨v, hv, h⟩ := bind_ok.mp h
  obtain ⟨u1, -, h⟩ := bind_ok.mp h
  obtain ⟨u2, -, h⟩ := bind_ok.mp h
  exact ⟨v, hv, (Except.ok.inj h).symm⟩

/-- Every table name of the metadata is present after `create_all`. -/
theorem mem_create_all (s : Storage) {t : String}
    (ht : t ∈ metadataTables.map TableDef.tablename) :
    t ∈ (create_all s).tables := by
  unfold create_all
  by_cases h : t ∈ s.tables
  · exact List.mem_append_left _ h
  · refine List.mem_append_right _ ?_
    rw [List.mem_filter]
    exact ⟨ht, by simpa using h⟩

/-- Running `create_all` twice changes nothing over running it once. -/
theorem create_all_idem (s : Storage) :
    create_all (create_all s) = create_all s := by
  have hnil : (metadataTables.map TableDef.tablename).filter
      (fun t => decide (t ∉ (create_all s).tables)) = [] := by
    rw [List.filter_eq_nil_iff]
    intro a ha
    simpa using mem_create_all s ha
  show ({ create_all s with tables := (create_all s).tables ++ _ } : Storage)
      = create_all s
  rw [hnil, List.append_nil]

/-- C1: for every entity with a foreign-key attribute
(`Defect.Inspection_ID`, `Inspection.Pipe_ID`, `Failure.Pipe_ID`,
`InterventionHistory.Pipe_ID`, `PipeSeismicImpact.Pipe_ID` and
`Seismic_activity_ID`, `HydraulicProperties.Pipe_ID`,
`Pipe.Weather_station_ID`, `Pipe.Manhole_up_ID`, `Pipe.Manhole_down_ID`),
inserting a record whose foreign-key value matches no stored row of the
target entity fails with a `ConstraintViolation` naming that foreign
key, and inserting one whose foreign-key value matches an existing
target row succeeds. -/
theorem foreign_keys_enforced :
    ((∀ (db : DB) (r : Defect) (k : Int),
        r.Defect_ID = none → r.Inspection_ID = some k → k ∉ inspectionPKs db →
        insertDefect db r = .error (.foreignKey "defect" "Inspection_ID")) ∧
     (∀ (db : DB) (r : Defect) (k : Int) (c : String),
        r.Defect_ID = none → r.Inspection_ID = some k → k ∈ inspectionPKs db →
        r.Main_defect_code = some c → succeeds (insertDefect db r))) ∧
    ((∀ (db : DB) (r : Inspection) (k : Int),
        r.Inspection_ID = none → r.Pipe_ID = some k → k ∉ pipePKs db →
        insertInspection db r = .error (.foreignKey "inspection" "Pipe_ID")) ∧
     (∀ (db : DB) (r : Inspection) (k : Int),
        r.Inspection_ID = none → r.Pipe_ID = some k → k ∈ pipePKs db →
        succeeds (insertInspection db r))) ∧
    ((∀ (db : DB) (r : Failure) (k : Int),
        r.Failure_ID = none → r.Pipe_ID = some k → k ∉ pipePKs db →
        insertFailure db r = .error (.foreignKey "failure" "Pipe_ID")) ∧
     (∀ (db : DB) (r : Failure) (k : Int),
        r.Failure_ID = none → r.Pipe_ID = some k → k ∈ pipePKs db →
        r.Intervention_ID = none → succeeds (insertFailure db r))) ∧
    ((∀ (db : DB) (r : InterventionHistory) (k : Int),
        r.Intervention_ID = none → r.Pipe_ID = some k → k ∉ pipePKs db →
        insertInterventionHistory db r =
          .error (.foreignKey "intervention_history" "Pipe_ID")) ∧
     (∀ (db : DB) (r : InterventionHistory) (k : Int),
        r.Intervention_ID = none → r.Pipe_ID = some k → k ∈ pipePKs db →
        succeeds (insertInterventionHistory db r))) ∧
    ((∀ (db : DB) (r : PipeSeismicImpact) (k : Int),
        r.id = none → r.Pipe_ID = some k → k ∉ pipePKs db →
        insertPipeSeismicImpact db r =
          .error (.foreignKey "pipe_seismic_impact" "Pipe_ID")) ∧
     (∀ (db : DB) (r : PipeSeismicImpact) (k m : Int),
        r.id = none → r.Pipe_ID = some k → k ∈ pipePKs db →
        r.Seismic_activity_ID = some m → m ∈ seismicActivityPKs db →
        succeeds (insertPipeSeismicImpact db r))) ∧
    ((∀ (db : DB) (r : PipeSeismicImpact) (k m : Int),
        r.id = none → r.Pipe_ID = some k → k ∈ pipePKs db →
        r.Seismic_activity_ID = some m → m ∉ seismicActivityPKs db →
        insertPipeSeismicImpact db r =
          .error (.foreignKey "pipe_seismic_impact" "Seismic_activity_ID")) ∧
     (∀ (db : DB) (r : PipeSeismicImpact) (k m : Int),
        r.id = none → r.Pipe_ID = some k → k ∈ pipePKs db →
        r.Seismic_activity_ID = some m → m ∈ seismicActivityPKs db →
        succeeds (insertPipeSeismicImpact db r))) ∧
    ((∀ (db : DB) (r : HydraulicProperties) (k : Int),
        r.Pipe_ID = some k → k ∉ hydraulicPropertiesPKs db → k ∉ pipePKs db →
        insertHydraulicProperties db r =
          .error (.foreignKey "hydraulic_properties" "Pipe_ID")) ∧
     (∀ (db : DB) (r : HydraulicProperties) (k : Int),
        r.Pipe_ID = some k → k ∉ hydraulicPropertiesPKs db → k ∈ pipePKs db →
        succeeds (insertHydraulicProperties db r))) ∧
    ((∀ (db : DB) (r : Pipe) (k : Int),
        r.Pipe_ID = none → r.Weather_station_ID = some k →
        k ∉ weatherStationPKs db →
        insertPipe db r = .error (.foreignKey "pipe" "Weather_station_ID")) ∧
     (∀ (db : DB) (r : Pipe) (k : Int),
        r.Pipe_ID = none → r.Weather_station_ID = some k →
        k ∈ weatherStationPKs db → r.Manhole_up_ID = none →
        r.Manhole_down_ID = none → succeeds (insertPipe db r))) ∧
    ((∀ (db : DB) (r : Pipe) (k : Int),
        r.Pipe_ID = none → r.Weather_station_ID = none →
        r.Manhole_up_ID = some k → k ∉ manholePKs db →
        insertPipe db r = .error (.foreignKey "pipe" "Manhole_up_ID")) ∧
     (∀ (db : DB) (r : Pipe) (k : Int),
        r.Pipe_ID = none → r.Weather_station_ID = none →
        r.Manhole_up_ID = some k → k ∈ manholePKs db →
        r.Manhole_down_ID = none → succeeds (insertPipe db r))) ∧
    ((∀ (db : DB) (r : Pipe) (k : Int),
        r.Pipe_ID = none → r.Weather_station_ID = none →
        r.Manhole_up_ID = none → r.Manhole_down_ID = some k →
        k ∉ manholePKs db →
        insertPipe db r = .error (.foreignKey "pipe" "Manhole_down_ID")) ∧
     (∀ (db : DB) (r : Pipe) (k : Int),
        r.Pipe_ID = none → r.Weather_station_ID = none →
        r.Manhole_up_ID = none → r.Manhole_down_ID = some k →
        k ∈ manholePKs db → succeeds (insertPipe db r))) := by
  refine ⟨⟨?_, ?_⟩, ⟨?_, ?_⟩, ⟨?_, ?_⟩, ⟨?_, ?_⟩, ⟨?_, ?_⟩, ⟨?_, ?_⟩,
    ⟨?_, ?_⟩, ⟨?_, ?_⟩, ⟨?_, ?_⟩, ⟨?_, ?_⟩⟩ <;>
  · intros
    simp_all [succeeds, insertDefect, insertInspection, insertFailure,
      insertInterventionHistory, insertPipeSeismicImpact,
      insertHydraulicProperties, insertPipe, resolvePK, checkFKreq,
      checkFKopt, checkReq, Except.bind]

/-- C1 witness: against the populated database `dbW`, a pipe with a
dangling upstream manhole is rejected, an inspection on a stored pipe is
accepted, a defect naming a missing inspection is rejected, and a defect
naming the stored inspection is accepted. -/
theorem foreign_keys_enforced_witness :
    insertPipe dbW { Manhole_up_ID := some 999 } =
      .error (.foreignKey "pipe" "Manhole_up_ID") ∧
    succeeds (insertInspection dbW { Pipe_ID := some 11 }) ∧
    insertDefect dbW { Inspection_ID := some 99, Main_defect_code := some "CR" } =
      .error (.foreignKey "defect" "Inspection_ID") ∧
    succeeds (insertDefect dbW
      { Inspection_ID := some 7, Main_defect_code := some "CR" }) :=
  ⟨foreign_keys_enforced.2.2.2.2.2.2.2.2.1.1 dbW _ 999 rfl rfl rfl (by decide),
   foreign_keys_enforced.2.1.2 dbW _ 11 rfl rfl (by decide),
   foreign_keys_enforced.1.1 dbW _ 99 rfl rfl (by decide),
   foreign_keys_enforced.1.2 dbW _ 7 "CR" rfl rfl (by decide) rfl⟩

/-- C2: the bootstrap operation `create_tables` is idempotent and
non-destructive: it never touches the stored rows, never removes an
existing table, running it twice equals running it once, and running it
when every table already exists changes nothing at all. -/
theorem create_tables_idempotent (s : Storage) :
    (create_tables s).db = s.db ∧
    (∀ t, t ∈ s.tables → t ∈ (create_tables s).tables) ∧
    create_tables (create_tables s) = create_tables s ∧
    ((∀ t, t ∈ metadataTables.map TableDef.tablename → t ∈ s.tables) →
      create_tables s = s) := by
  refine ⟨rfl, ?_, create_all_idem s, ?_⟩
  · intro t ht
    exact List.mem_append_left _ ht
  · intro h
    have hnil : (metadataTables.map TableDef.tablename).filter
        (fun t => decide (t ∉ s.tables)) = [] := by
      rw [List.filter_eq_nil_iff]
      intro a ha
      simpa using h a ha
    show ({ s with tables := s.tables ++ _ } : Storage) = s
    rw [hnil, List.append_nil]

/-- C2 witness: on a storage that already holds every table (the result
of a first bootstrap from empty), `create_tables` is the identity, and
from empty storage it leaves the (empty) rows unchanged. -/
theorem create_tables_idempotent_witness :
    create_tables (create_tables ({} : Storage)) = create_tables {} ∧
    (create_tables ({} : Storage)).db = ({} : Storage).db :=
  ⟨(create_tables_idempotent (create_tables {})).2.2.2
      (fun _ ht => mem_create_all {} ht),
   (create_tables_idempotent {}).1⟩

/-- C3: the Pipe-to-HydraulicProperties link is one-to-one: a second
`hydraulic_properties` record whose `Pipe_ID` is already occupied is
rejected, and one with a fresh `Pipe_ID` belonging to a stored pipe is
accepted. -/
theorem hydraulic_properties_one_to_one :
    (∀ (db : DB) (r : HydraulicProperties) (p : Int),
      r.Pipe_ID = some p → p ∈ hydraulicPropertiesPKs db →
      insertHydraulicProperties db r =
        .error (.uniqueKey "hydraulic_properties" "Pipe_ID")) ∧
    (∀ (db : DB) (r : HydraulicProperties) (p : Int),
      r.Pipe_ID = some p → p ∉ hydraulicPropertiesPKs db → p ∈ pipePKs db →
      succeeds (insertHydraulicProperties db r)) := by
  constructor
  · intro db r p h1 h2
    simp [insertHydraulicProperties, h1, h2]
  · intro db r p h1 h2 h3
    simp [succeeds, insertHydraulicProperties, h1, h2, h3]

/-- C3 witness: in `dbW`, pipe 10 already owns a hydraulic-properties
record, so a second one for pipe 10 is rejected while one for the stored
pipe 11 is accepted. -/
theorem hydraulic_properties_one_to_one_witness :
    insertHydraulicProperties dbW { Pipe_ID := some 10 } =
      .error (.uniqueKey "hydraulic_properties" "Pipe_ID") ∧
    succeeds (insertHydraulicProperties dbW { Pipe_ID := some 11 }) :=
  ⟨hydraulic_properties_one_to_one.1 dbW _ 10 rfl (by decide),
   hydraulic_properties_one_to_one.2 dbW _ 11 rfl (by decide) (by decide)⟩

/-- C4: for every entity, no two distinct stored records share a
primary-key value, and this uniqueness is preserved by every one of the
thirteen insert operations. -/
theorem primary_keys_unique (db : DB) (hu : DBUnique db) :
    (∀ r db', insertPipe db r = .ok db' → DBUnique db') ∧
    (∀ r db', insertWeatherStation db r = .ok db' → DBUnique db') ∧
    (∀ r db', insertRainfall db r = .ok db' → DBUnique db') ∧
    (∀ r db', insertAirHumidity db r = .ok db' → DBUnique db') ∧
    (∀ r db', insertAirTemperature db r = .ok db' → DBUnique db') ∧
    (∀ r db', insertPipeSeismicImpact db r = .ok db' → DBUnique db') ∧
    (∀ r db', insertSeismicActivity db r = .ok db' → DBUnique db') ∧
    (∀ r db', insertManhole db r = .ok db' → DBUnique db') ∧
    (∀ r db', insertHydraulicProperties db r = .ok db' → DBUnique db') ∧
    (∀ r db', insertInterventionHistory db r = .ok db' → DBUnique db') ∧
    (∀ r db', insertInspection db r = .ok db' → DBUnique db') ∧
    (∀ r db', insertDefect db r = .ok db' → DBUnique db') ∧
    (∀ r db', insertFailure db r = .ok db' → DBUnique db') := by
  obtain ⟨h1, h2, h3, h4, h5, h6, h7, h8, h9, h10, h11, h12, h13⟩ := hu
  refine ⟨?_, ?_, ?_, ?_, ?_, ?_, ?_, ?_, ?_, ?_, ?_, ?_, ?_⟩
  · intro r db' h
    obtain ⟨v, hv, rfl⟩ := insertPipe_ok h
    unfold DBUnique
    exact ⟨nodup_cons_keys rfl (resolvePK_ok_not_mem hv) h1,
      h2, h3, h4, h5, h6, h7, h8, h9, h10, h11, h12, h13⟩
  · intro r db' h
    obtain ⟨v, hv, rfl⟩ := insertWeatherStation_ok h
    unfold DBUnique
    exact ⟨h1, nodup_cons_keys rfl (resolvePK_ok_not_mem hv) h2,
      h3, h4, h5, h6, h7, h8, h9, h10, h11, h12, h13⟩
  · intro r db' h
    obtain ⟨v, hv, rfl⟩ := insertRainfall_ok h
    unfold DBUnique
    exact ⟨h1, h2, nodup_cons_keys rfl (resolvePK_ok_not_mem hv) h3,
      h4, h5, h6, h7, h8, h9, h10, h11, h12, h13⟩
  · intro r db' h
    obtain ⟨v, hv, rfl⟩ := insertAirHumidity_ok h
    unfold DBUnique
    exact ⟨h1, h2, h3, nodup_cons_keys rfl (resolvePK_ok_not_mem hv) h4,
      h5, h6, h7, h8, h9, h10, h11, h12, h13⟩
  · intro r db' h
    obtain ⟨v, hv, rfl⟩ := insertAirTemperature_ok h
    unfold DBUnique
    exact ⟨h1, h2, h3, h4, nodup_cons_keys rfl (resolvePK_ok_not_mem hv) h5,
      h6, h7, h8, h9, h10, h11, h12, h13⟩
  · intro r db' h
    obtain ⟨v, hv, rfl⟩ := insertPipeSeismicImpact_ok h
    unfold DBUnique
    exact ⟨h1, h2, h3, h4, h5, nodup_cons_keys rfl (resolvePK_ok_not_mem hv) h6,
      h7, h8, h9, h10, h11, h12, h13⟩
  · intro r db' h
    obtain ⟨v, hv, rfl⟩ := insertSeismicActivity_ok h
    unfold DBUnique
    exact ⟨h1, h2, h3, h4, h5, h6,
      nodup_cons_keys rfl (resolvePK_ok_not_mem hv) h7,
      h8, h9, h10, h11, h12, h13⟩
  · intro r db' h
    obtain ⟨v, hv, rfl⟩ := insertManhole_ok h
    unfold DBUnique
    exact ⟨h1, h2, h3, h4, h5, h6, h7,
      nodup_cons_keys rfl (resolvePK_ok_not_mem hv) h8,
      h9, h10, h11, h12, h13⟩
  · intro r db' h
    obtain ⟨v, -, hnot, -, rfl⟩ := insertHydraulicProperties_ok h
    unfold DBUnique
    exact ⟨h1, h2, h3, h4, h5, h6, h7, h8,
      nodup_cons_keys rfl hnot h9, h10, h11, h12, h13⟩
  · intro r db' h
    obtain ⟨v, hv, rfl⟩ := insertInterventionHistory_ok h
    unfold DBUnique
    exact ⟨h1, h2, h3, h4, h5, h6, h7, h8, h9,
      nodup_cons_keys rfl (resolvePK_ok_not_mem hv) h10, h11, h12, h13⟩
  · intro r db' h
    obtain ⟨v, hv, rfl⟩ := insertInspection_ok h
    unfold DBUnique
    exact ⟨h1, h2, h3, h4, h5, h6, h7, h8, h9, h10,
      nodup_cons_keys rfl (resolvePK_ok_not_mem hv) h11, h12, h13⟩
  · intro r db' h
    obtain ⟨v, hv, rfl⟩ := insertDefect_ok h
    unfold DBUnique
    exact ⟨h1, h2, h3, h4, h5, h6, h7, h8, h9, h10, h11,
      nodup_cons_keys rfl (resolvePK_ok_not_mem hv) h12, h13⟩
  · intro r db' h
    obtain ⟨v, hv, rfl⟩ := insertFailure_ok h
    unfold DBUnique
    exact ⟨h1, h2, h3, h4, h5, h6, h7, h8, h9, h10, h11, h12,
      nodup_cons_keys rfl (resolvePK_ok_not_mem hv) h13⟩

/-- C4 witness: inserting a pipe into the empty (hence duplicate-free)
database yields a database whose key columns are still
duplicate-free. -/
theorem primary_keys_unique_witness :
    DBUnique { pipes := [{ Pipe_ID := some 1 }] } :=
  (primary_keys_unique emptyDB (by simp [DBUnique, emptyDB])).1
    {} { pipes := [{ Pipe_ID := some 1 }] } rfl

/-- C5: two `pipe_seismic_impact` records with the same
(`Pipe_ID`, `Seismic_activity_ID`) pair, both referencing stored rows,
are both accepted, and the two stored records receive distinct surrogate
`id` values. -/
theorem seismic_impact_duplicate_pairs (db : DB) (p s : Int)
    (hp : p ∈ pipePKs db) (hs : s ∈ seismicActivityPKs db) :
    ∃ db1 db2 i1 i2,
      insertPipeSeismicImpact db ⟨some p, some s, none⟩ = .ok db1 ∧
      insertPipeSeismicImpact db1 ⟨some p, some s, none⟩ = .ok db2 ∧
      db2.pipe_seismic_impacts =
        ⟨some p, some s, some i2⟩ :: ⟨some p, some s, some i1⟩ ::
          db.pipe_seismic_impacts ∧
      i1 ≠ i2 := by
  have hp2 : p ∈ List.filterMap Pipe.Pipe_ID db.pipes := hp
  have hs2 : s ∈ List.filterMap SeismicActivity.Seismic_activity_ID
      db.seismic_activities := hs
  refine
    ⟨{ db with pipe_seismic_impacts :=
         ⟨some p, some s, some (nextId (pipeSeismicImpactPKs db))⟩ ::
           db.pipe_seismic_impacts },
     { db with pipe_seismic_impacts :=
         ⟨some p, some s,
          some (nextId (nextId (pipeSeismicImpactPKs db) ::
            pipeSeismicImpactPKs db))⟩ ::
           ⟨some p, some s, some (nextId (pipeSeismicImpactPKs db))⟩ ::
             db.pipe_seismic_impacts },
     nextId (pipeSeismicImpactPKs db),
     nextId (nextId (pipeSeismicImpactPKs db) :: pipeSeismicImpactPKs db),
     ?_, ?_, rfl, ?_⟩
  · simp [insertPipeSeismicImpact, resolvePK, checkFKreq, Except.bind, hp, hs]
  · simp [insertPipeSeismicImpact, resolvePK, checkFKreq, Except.bind,
      pipeSeismicImpactPKs, pipePKs, seismicActivityPKs, List.filterMap_cons,
      hp2, hs2]
  · intro hcontra
    unfold nextId at hcontra
    rw [List.foldr_cons] at hcontra
    set M := (pipeSeismicImpactPKs db).foldr max 0 with hM
    rw [max_eq_left (by omega : M ≤ M + 1)] at hcontra
    omega

/-- C5 witness: the duplicate pair (pipe 10, seismic activity 5) is
accepted twice against `dbW`, with distinct surrogate ids. -/
theorem seismic_impact_duplicate_pairs_witness :
    ∃ db1 db2 i1 i2,
      insertPipeSeismicImpact dbW ⟨some 10, some 5, none⟩ = .ok db1 ∧
      insertPipeSeismicImpact db1 ⟨some 10, some 5, none⟩ = .ok db2 ∧
      db2.pipe_seismic_impacts =
        ⟨some 10, some 5, some i2⟩ :: ⟨some 10, some 5, some i1⟩ ::
          dbW.pipe_seismic_impacts ∧
      i1 ≠ i2 :=
  seismic_impact_duplicate_pairs dbW 10 5 (by decide) (by decide)

/-- C6: `Failure.Intervention_ID` is nullable — a failure with no
intervention but a valid pipe is accepted — whereas `Failure.Pipe_ID` is
required: a failure whose `Pipe_ID` is NULL is never stored. -/
theorem failure_intervention_nullable :
    (∀ (db : DB) (r : Failure) (p : Int),
      r.Failure_ID = none → r.Pipe_ID = some p → p ∈ pipePKs db →
      r.Intervention_ID = none → succeeds (insertFailure db r)) ∧
    (∀ (db : DB) (r : Failure), r.Pipe_ID = none →
      ∀ db', insertFailure db r ≠ .ok db') := by
  constructor
  · intro db r p h1 h2 h3 h4
    simp [succeeds, insertFailure, resolvePK, checkFKreq, checkFKopt,
      Except.bind, h1, h2, h3, h4]
  · intro db r h db' hok
    rw [insertFailure] at hok
    obtain ⟨v, hv, hok⟩ := bind_ok.mp hok
    rw [h] at hok
    simp [checkFKreq, Except.bind] at hok

/-- C6 witness: a failure on stored pipe 10 with NULL intervention is
accepted, and a failure with NULL pipe is rejected. -/
theorem failure_intervention_nullable_witness :
    succeeds (insertFailure dbW { Pipe_ID := some 10 }) ∧
    insertFailure dbW {} ≠ .ok dbW :=
  ⟨failure_intervention_nullable.1 dbW _ 10 rfl rfl (by decide) rfl,
   failure_intervention_nullable.2 dbW {} rfl dbW⟩

/-- C7: a defect whose `Circumferential_end` is numerically less than
its `Circumferential_start` (wrapping past the 12/0 boundary) is
accepted; no check rejects it as an invalid range. -/
theorem defect_circumferential_wrap :
    ∀ (db : DB) (r : Defect) (k s e : Int) (c : String),
      r.Defect_ID = none → r.Inspection_ID = some k → k ∈ inspectionPKs db →
      r.Main_defect_code = some c →
      r.Circumferential_start = some s → r.Circumferential_end = some e →
      e < s → succeeds (insertDefect db r) := by
  intro db r k s e c h1 h2 h3 h4 h5 h6 h7
  simp [succeeds, insertDefect, resolvePK, checkFKreq, checkReq, Except.bind,
    h1, h2, h3, h4]

/-- C7 witness: a defect on inspection 7 running from clock position 11
to clock position 1 is accepted. -/
theorem defect_circumferential_wrap_witness :
    succeeds (insertDefect dbW
      { Inspection_ID := some 7, Main_defect_code := some "CR",
        Circumferential_start := some 11, Circumferential_end := some 1 }) :=
  defect_circumferential_wrap dbW _ 7 11 1 "CR" rfl rfl (by decide) rfl rfl rfl
    (by decide)

/-- C8: mapper configuration — run by the ORM on the first instantiation
or query of any mapped class — fails naming `SeismicActivity.pipes`,
because its `back_populates` asks for a relationship attribute
`seismic_activity` that no relationship declaration of class `Pipe`
provides; table creation via `create_tables` nevertheless materializes
every table, since it reads only the table metadata. -/
theorem mapper_configuration_dangling :
    configure_mappers = .error ("SeismicActivity", "pipes") ∧
    (∀ rel ∈ schemaRelationships,
      ¬(rel.owner = "Pipe" ∧ rel.attr = "seismic_activity")) ∧
    (create_tables ({} : Storage)).tables =
      metadataTables.map TableDef.tablename := by
  refine ⟨rfl, ?_, rfl⟩
  decide

/-- C9: `Defect.Main_defect_code` is required — a defect whose code is
NULL is never stored — and it is the only `nullable=False` column in the
whole metadata that is neither a primary-key nor a foreign-key
column. -/
theorem main_defect_code_required :
    (∀ (db : DB) (r : Defect), r.Main_defect_code = none →
      ∀ db', insertDefect db r ≠ .ok db') ∧
    requiredPlainColumns = [("defect", "Main_defect_code")] := by
  constructor
  · intro db r h db' hok
    rw [insertDefect] at hok
    obtain ⟨v, hv, hok⟩ := bind_ok.mp hok
    obtain ⟨k, hk, hok⟩ := bind_ok.mp hok
    rw [h] at hok
    simp [checkReq, Except.bind] at hok
  · rfl

/-- C9 witness: a defect on the stored inspection 7 with NULL
`Main_defect_code` is rejected. -/
theorem main_defect_code_required_witness :
    insertDefect dbW { Inspection_ID := some 7 } ≠ .ok dbW :=
  main_defect_code_required.1 dbW _ rfl dbW

/-- C10: `Pipe.Seismic_activity_ID` is a plain nullable integer column
with no foreign key: a pipe carrying any value there is accepted against
any database — in particular one with no seismic-activity rows at
all. -/
theorem pipe_seismic_activity_id_unconstrained :
    (∀ (db : DB) (r : Pipe) (v : Int),
      r.Pipe_ID = none → r.Weather_station_ID = none →
      r.Manhole_up_ID = none → r.Manhole_down_ID = none →
      r.Seismic_activity_ID = some v → succeeds (insertPipe db r)) ∧
    pipeTable.columns.find? (fun c => c.name == "Seismic_activity_ID") =
      some ⟨"Seismic_activity_ID", .integer, true, false, none⟩ := by
  constructor
  · intro db r v h1 h2 h3 h4 h5
    simp [succeeds, insertPipe, resolvePK, checkFKopt, Except.bind,
      h1, h2, h3, h4]
  · rfl

/-- C10 witness: a pipe with `Seismic_activity_ID = 42` is accepted by
the empty database, which stores no seismic activity whatsoever. -/
theorem pipe_seismic_activity_id_unconstrained_witness :
    succeeds (insertPipe emptyDB { Seismic_activity_ID := some 42 }) :=
  pipe_seismic_activity_id_unconstrained.1 emptyDB _ 42 rfl rfl rfl rfl rfl

end SewerSchema
